import Mathlib

/-!
Verification of the `agentcfg` Elasticsearch fetcher
(`src/agentcfg/elasticsearch.go`).

The Go file implements a background refresh-and-cache engine:
`ElasticsearchFetcher.Run` periodically calls `refreshCache`, which pulls
the full corpus of agent-configuration documents page by page
(`singlePageRefresh`), publishes the accumulated buffer into the cache,
and maintains two atomic flags (`invalidESCfg`, `cacheInitialized`) that
gate the read path `Fetch`.

Shallow embedding conventions:
 - The mutable fetcher state (`cache`, `invalidESCfg`, `cacheInitialized`)
   becomes an explicit `ElasticsearchFetcher` record threaded through the
   operations.  Fields of the Go struct not touched by the verified claims
   (`last`, `client`, `logger`, `cacheDuration`, `searchSize`, `mu`) are
   omitted; `searchSize` and `cacheDuration` only parametrise the upstream
   requests, which are modelled by their observable responses.
 - Network interaction is modelled by the environment supplying a list of
   `PageResponse`s (one per page request issued, in order) and a list of
   `ClearScrollResponse`s (one per cursor-cleanup request issued).  A Go
   transport error (including a context deadline exceeded) is
   `PageResponse.transportError`; otherwise the response carries its HTTP
   status code and a body that either JSON-decodes into a `cacheResult`
   or is malformed.
 - Running out of supplied responses mid-loop has no Go counterpart (the
   transport always yields some outcome), so the functions return `none`
   (`Option`) in that case; every claim is stated about `some` results.
 - `matchAgentConfig` lives outside this file's source and is an external
   collaborator per the spec, so `Fetch` takes it as a function parameter.
 - Logging is modelled only where a claim mentions it: `clearScroll`
   returns the warning line it would log.
-/

set_option autoImplicit false

namespace Agentcfg

/-- Mirrors Go `AgentConfig` (fields used by `refreshCache` lines 175-181).
The Go `map[string]string` settings become an association list. -/
structure AgentConfig where
  serviceName : String
  serviceEnvironment : String
  agentName : String
  etag : String
  config : List (String × String)
deriving DecidableEq

/-- Mirrors the nested `Service` object of `cacheResult` (lines 148-151). -/
structure Service where
  name : String
  environment : String
deriving DecidableEq

/-- Mirrors the `_source` object of one hit of `cacheResult` (lines 146-154). -/
structure HitSource where
  settings : List (String × String)
  service : Service
  agentName : String
  etag : String
deriving DecidableEq

/-- Mirrors Go `cacheResult` (lines 142-157); the doubly nested
`Hits.Hits` collapses to one list of hit sources. -/
structure CacheResult where
  scroll_id : String
  hits : List HitSource
deriving DecidableEq

/-- The mutable state of Go `ElasticsearchFetcher` (lines 58-68) that the
verified operations read or write: the published cache slice and the two
atomic booleans. -/
structure ElasticsearchFetcher where
  cache : List AgentConfig
  invalidESCfg : Bool
  cacheInitialized : Bool
deriving DecidableEq

/-- Go `NewElasticsearchFetcher` (lines 70-81): the zero values of the
modelled fields (nil cache, both flags false). -/
def NewElasticsearchFetcher : ElasticsearchFetcher :=
  { cache := [], invalidESCfg := false, cacheInitialized := false }

/-- Go constant `ErrInfrastructureNotReady` (line 43). -/
def ErrInfrastructureNotReady : String := "agentcfg infrastructure is not ready"

/-- Go constant `ErrNoValidElasticsearchConfig` (line 47). -/
def ErrNoValidElasticsearchConfig : String := "no valid elasticsearch config to fetch agent config"

/-- Go `Fetch` (lines 84-97).  `matchAgentConfig` is the external Matcher
collaborator (defined outside this source file), passed as a parameter;
`Query` and `Result` are opaque payload types. -/
def Fetch {Query Result : Type} (matchAgentConfig : Query → List AgentConfig → Result)
    (f : ElasticsearchFetcher) (query : Query) : Except String Result :=
  if f.cacheInitialized then
    Except.ok (matchAgentConfig query f.cache)
  else if f.invalidESCfg then
    Except.error ErrNoValidElasticsearchConfig
  else
    Except.error ErrInfrastructureNotReady

/-- Body of an HTTP response carrying a non-error status: either it
JSON-decodes into a `CacheResult` or the decoder fails (line 249). -/
inductive ResponseBody where
  | malformed
  | valid (result : CacheResult)
deriving DecidableEq

/-- Outcome of one page request (`esapi.SearchRequest`/`esapi.ScrollRequest`
`.Do`, lines 220-232): a transport-level error (including a context
deadline exceeded), or a response with a status code and a body. -/
inductive PageResponse where
  | transportError
  | response (statusCode : Nat) (body : ResponseBody)
deriving DecidableEq

/-- The distinct error returns of Go `singlePageRefresh`: the transport
error itself (line 234), the formatted status error (line 247), or the
JSON decode error (line 249). -/
inductive FetchPageError where
  | transport
  | status (code : Nat)
  | decode
deriving DecidableEq

/-- Go `singlePageRefresh` (lines 215-250) acting on the `invalidESCfg`
flag: given the flag's current value and the page response, returns the
new flag value and either the decoded result or the error.  Status
comparisons use `http.StatusBadRequest = 400`, `http.StatusUnauthorized
= 401`, `http.StatusForbidden = 403`. -/
def singlePageRefresh (invalidESCfg : Bool) (resp : PageResponse) :
    Bool × Except FetchPageError CacheResult :=
  match resp with
  | .transportError => (invalidESCfg, Except.error FetchPageError.transport)
  | .response statusCode body =>
    if 400 ≤ statusCode then
      ((if statusCode = 401 ∨ statusCode = 403 then true else invalidESCfg),
        Except.error (FetchPageError.status statusCode))
    else
      match body with
      | .malformed => (invalidESCfg, Except.error FetchPageError.decode)
      | .valid result => (invalidESCfg, Except.ok result)

/-- Outcome of one `esapi.ClearScrollRequest.Do` (lines 200-210): transport
error, response with error status, or success. -/
inductive ClearScrollResponse where
  | transportError
  | statusError (status : String)
  | ok
deriving DecidableEq

/-- Go `clearScroll` (lines 199-213): purely best-effort; its only effect
is the warning line it logs, returned here (`none` = no log). -/
def clearScroll (resp : ClearScrollResponse) : Option String :=
  match resp with
  | .transportError => some "failed to clear scroll"
  | .statusError s => some ("clearscroll request returned error: " ++ s)
  | .ok => none

/-- The struct literal of `refreshCache` lines 175-181 turning one hit into
an `AgentConfig`. -/
def hitToAgentConfig (hit : HitSource) : AgentConfig :=
  { serviceName := hit.service.name
    serviceEnvironment := hit.service.environment
    agentName := hit.agentName
    etag := hit.etag
    config := hit.settings }

/-- Result of the pagination loop of `refreshCache` (lines 167-187):
final flag value, buffer or error, number of page requests issued,
number of `clearScroll` calls made inside the loop, their log lines, and
the scroll id current when the loop ended (the error path hands the
pre-page id to `clearScroll`; the break path hands the updated one to
the post-loop call). -/
structure LoopOut where
  invalidESCfg : Bool
  outcome : Except FetchPageError (List AgentConfig)
  pagesUsed : Nat
  clearScrollCalls : Nat
  logs : List String
  scrollID : String

/-- The `for` loop of Go `refreshCache` (lines 167-187).  Each iteration
consumes the next `PageResponse`; on error it calls `clearScroll` (line
170) and stops; on a page with zero hits it breaks after appending
(nothing) and updating the scroll id; otherwise it appends the page's
records and continues.  `none` when the environment supplies too few
responses (no Go counterpart). -/
def refreshLoop (invalidESCfg : Bool) (buffer : List AgentConfig) (scrollID : String)
    (cs : List ClearScrollResponse) : List PageResponse → Option LoopOut
  | [] => none
  | page :: rest =>
    match singlePageRefresh invalidESCfg page with
    | (invalidESCfg1, Except.error e) =>
      some { invalidESCfg := invalidESCfg1, outcome := Except.error e, pagesUsed := 1,
             clearScrollCalls := 1, logs := (clearScroll (cs.headD .ok)).toList,
             scrollID := scrollID }
    | (invalidESCfg1, Except.ok result) =>
      if result.hits.length = 0 then
        some { invalidESCfg := invalidESCfg1,
               outcome := Except.ok (buffer ++ result.hits.map hitToAgentConfig),
               pagesUsed := 1, clearScrollCalls := 0, logs := [],
               scrollID := result.scroll_id }
      else
        (refreshLoop invalidESCfg1 (buffer ++ result.hits.map hitToAgentConfig)
            result.scroll_id cs rest).map
          (fun o => { o with pagesUsed := o.pagesUsed + 1 })

/-- Observable outcome of one whole `refreshCache` cycle: the fetcher
state afterwards, the returned error (`none` = nil), how many
`clearScroll` calls and page requests the cycle made, and the cleanup
log lines. -/
structure CycleResult where
  state : ElasticsearchFetcher
  err : Option FetchPageError
  clearScrollCalls : Nat
  pagesUsed : Nat
  logs : List String
deriving DecidableEq

/-- Go `refreshCache` (lines 159-197): runs the pagination loop starting
from an empty buffer and empty scroll id; on loop error the error is
returned with the state's flag updated (cache and `cacheInitialized`
untouched); on success `clearScroll` is called once more (line 189), the
buffer is published as the new cache and `cacheInitialized` is stored
true (lines 191-194).  The `last` timestamp and the buffer's capacity
hint (`len(f.cache)`, a pure performance hint) are not modelled. -/
def refreshCache (f : ElasticsearchFetcher) (pages : List PageResponse)
    (cs : List ClearScrollResponse) : Option CycleResult :=
  match refreshLoop f.invalidESCfg [] "" cs pages with
  | none => none
  | some o =>
    match o.outcome with
    | Except.error e =>
      some { state := { f with invalidESCfg := o.invalidESCfg }, err := some e,
             clearScrollCalls := o.clearScrollCalls, pagesUsed := o.pagesUsed,
             logs := o.logs }
    | Except.ok buffer =>
      some { state := { cache := buffer, invalidESCfg := o.invalidESCfg,
                        cacheInitialized := true },
             err := none,
             clearScrollCalls := o.clearScrollCalls + 1,
             pagesUsed := o.pagesUsed,
             logs := o.logs ++ (clearScroll (cs.headD .ok)).toList }

/-- The reason a Go context reports when done (`ctx.Err()`). -/
inductive CtxError where
  | canceled
  | deadlineExceeded
deriving DecidableEq

/-- One scheduling event observed by Go `Run` (lines 100-140): either the
outer context is done at a wait point (the initial `select` or a tick
wait), or a tick fires and a refresh cycle runs against the supplied
page/cleanup responses. -/
inductive RunEvent where
  | cancelled (reason : CtxError)
  | tick (pages : List PageResponse) (cs : List ClearScrollResponse)
deriving DecidableEq

/-- Go `Run` (lines 100-140) over a finite schedule of events.  Returns
`some (state, some reason)` when the context is done (`return ctx.Err()`),
`some (state, none)` when a refresh error with `invalidESCfg` set stops
the loop (`return nil`, lines 107-109 and 122-123/135-136), and `none`
when the schedule is exhausted with `Run` still looping. -/
def Run : ElasticsearchFetcher → List RunEvent → Option (ElasticsearchFetcher × Option CtxError)
  | _, [] => none
  | f, RunEvent.cancelled reason :: _ => some (f, some reason)
  | f, RunEvent.tick pages cs :: rest =>
    match refreshCache f pages cs with
    | none => none
    | some cr =>
      match cr.err with
      | some _ =>
        if cr.state.invalidESCfg then some (cr.state, none)
        else Run cr.state rest
      | none => Run cr.state rest

/-- The status-code test of line 240: the two codes (401 unauthorized,
403 forbidden) that mark the Elasticsearch config permanently invalid. -/
def isAuthFailure : PageResponse → Bool
  | .response statusCode _ => statusCode == 401 || statusCode == 403
  | _ => false

/-- A page response that decodes successfully and carries at least one hit
(the loop continues past it). -/
def isNonemptyOkPage : PageResponse → Bool
  | .response statusCode (.valid result) =>
    decide (statusCode < 400) && !(result.hits.length == 0)
  | _ => false

/-- A page response that decodes successfully and carries zero hits (the
loop breaks at it). -/
def isEmptyOkPage : PageResponse → Bool
  | .response statusCode (.valid result) =>
    decide (statusCode < 400) && (result.hits.length == 0)
  | _ => false

/-- The records a successfully decoded page contributes to the buffer. -/
def pageRecords : PageResponse → List AgentConfig
  | .response _ (.valid result) => result.hits.map hitToAgentConfig
  | _ => []

/-- Modelled from the spec (§8, testable property 1): the records gathered
in one refresh cycle, page by page in arrival order, stopping at the
first zero-record page; `none` if the page sequence does not describe a
successful cycle.  Used only to compare `refreshCache`'s published cache
against the spec's wording; note it does not depend on any prior state. -/
def gatheredRecords : List PageResponse → Option (List AgentConfig)
  | [] => none
  | PageResponse.response statusCode (ResponseBody.valid result) :: rest =>
    if statusCode < 400 then
      if result.hits.length = 0 then some []
      else (gatheredRecords rest).map (fun l => result.hits.map hitToAgentConfig ++ l)
    else none
  | _ => none

/-- The observable loop output apart from the cleanup log lines. -/
def LoopOut.core (o : LoopOut) :
    Bool × Except FetchPageError (List AgentConfig) × Nat × Nat :=
  (o.invalidESCfg, o.outcome, o.pagesUsed, o.clearScrollCalls)

/-- Concrete sample hit used by the witness theorems. -/
def sampleHit : HitSource :=
  { settings := [("capture_body", "all")],
    service := { name := "svc", environment := "prod" },
    agentName := "java", etag := "abc" }

/-- A successfully decoded page carrying one hit. -/
def samplePage : PageResponse :=
  PageResponse.response 200 (ResponseBody.valid { scroll_id := "sc1", hits := [sampleHit] })

/-- A successfully decoded page carrying zero hits (terminates pagination). -/
def sampleEmptyPage : PageResponse :=
  PageResponse.response 200 (ResponseBody.valid { scroll_id := "sc2", hits := [] })

/-- An unauthorized (401) response. -/
def sampleAuthPage : PageResponse := PageResponse.response 401 ResponseBody.malformed

/-- A fetcher state holding a published snapshot (used by witnesses). -/
def initializedFetcher : ElasticsearchFetcher :=
  { cache := [hitToAgentConfig sampleHit], invalidESCfg := false, cacheInitialized := true }

/-- A fetcher state with both flags up (used by witnesses). -/
def bothFlagsFetcher : ElasticsearchFetcher :=
  { cache := [], invalidESCfg := true, cacheInitialized := true }

/-- A generic server-error (500) response. -/
def sampleServerErrorPage : PageResponse := PageResponse.response 500 ResponseBody.malformed

/-! ### Helper lemmas about `singlePageRefresh` -/

/-- The flag after one page is the old flag, forced to `true` exactly on a
401/403 response. -/
theorem singlePageRefresh_fst (inv : Bool) (p : PageResponse) :
    (singlePageRefresh inv p).1 = (isAuthFailure p || inv) := by
  cases p with
  | transportError => simp [singlePageRefresh, isAuthFailure]
  | response code body =>
    simp only [singlePageRefresh, isAuthFailure]
    split_ifs with h400 hauth
    · rcases hauth with h | h <;> simp [h]
    · have h1 : (code == 401) = false := by
        simp only [beq_eq_false_iff_ne, ne_eq]; intro h; exact hauth (Or.inl h)
      have h3 : (code == 403) = false := by
        simp only [beq_eq_false_iff_ne, ne_eq]; intro h; exact hauth (Or.inr h)
      simp [h1, h3]
    · have h1 : (code == 401) = false := by
        simp only [beq_eq_false_iff_ne, ne_eq]; intro h; omega
      have h3 : (code == 403) = false := by
        simp only [beq_eq_false_iff_ne, ne_eq]; intro h; omega
      cases body <;> simp [h1, h3]

/-- Restatement of `singlePageRefresh_fst` for a pattern-matched call. -/
theorem singlePageRefresh_fst_eq (inv : Bool) (p : PageResponse) (inv1 : Bool)
    (r : Except FetchPageError CacheResult) (h : singlePageRefresh inv p = (inv1, r)) :
    inv1 = (isAuthFailure p || inv) := by
  have hf := singlePageRefresh_fst inv p
  rw [h] at hf
  simpa using hf

/-- A page that yields a decoded result leaves the flag untouched. -/
theorem singlePageRefresh_ok_invalid (inv : Bool) (p : PageResponse) (inv1 : Bool)
    (r : CacheResult) (h : singlePageRefresh inv p = (inv1, Except.ok r)) : inv1 = inv := by
  cases p with
  | transportError => simp [singlePageRefresh] at h
  | response code body =>
    cases body with
    | malformed =>
      simp only [singlePageRefresh] at h
      split_ifs at h <;> simp_all
    | valid result =>
      by_cases h400 : 400 ≤ code
      · simp [singlePageRefresh, if_pos h400] at h
      · simp only [singlePageRefresh, if_neg h400, Prod.mk.injEq,
          Except.ok.injEq] at h
        exact h.1.symm

/-- A page that yields a decoded result is a sub-400 response with a valid
body, and the decoded result is that body. -/
theorem singlePageRefresh_ok_page (inv : Bool) (p : PageResponse) (inv1 : Bool)
    (r : CacheResult) (h : singlePageRefresh inv p = (inv1, Except.ok r)) :
    ∃ code, p = PageResponse.response code (ResponseBody.valid r) ∧ code < 400 := by
  cases p with
  | transportError => simp [singlePageRefresh] at h
  | response code body =>
    cases body with
    | malformed =>
      simp only [singlePageRefresh] at h
      split_ifs at h <;> simp_all
    | valid result =>
      by_cases h400 : 400 ≤ code
      · simp [singlePageRefresh, if_pos h400] at h
      · simp only [singlePageRefresh, if_neg h400, Prod.mk.injEq,
          Except.ok.injEq] at h
        exact ⟨code, by rw [h.2], by omega⟩

/-- The error a 401/403 page produces names its status code. -/
theorem singlePageRefresh_auth_error (inv : Bool) (p : PageResponse) (inv1 : Bool)
    (e : FetchPageError) (h : singlePageRefresh inv p = (inv1, Except.error e))
    (hauth : isAuthFailure p = true) :
    e = FetchPageError.status 401 ∨ e = FetchPageError.status 403 := by
  cases p with
  | transportError => simp [isAuthFailure] at hauth
  | response code body =>
    simp only [isAuthFailure, Bool.or_eq_true, beq_iff_eq] at hauth
    have h400 : 400 ≤ code := by omega
    simp only [singlePageRefresh, if_pos h400, Prod.mk.injEq,
      Except.error.injEq] at h
    rcases hauth with h1 | h1
    · left; rw [← h.2, h1]
    · right; rw [← h.2, h1]

/-- An error other than a 401/403 status error cannot come from a 401/403
response. -/
theorem singlePageRefresh_transient_error (inv : Bool) (p : PageResponse) (inv1 : Bool)
    (e : FetchPageError) (h : singlePageRefresh inv p = (inv1, Except.error e))
    (h1 : e ≠ FetchPageError.status 401) (h3 : e ≠ FetchPageError.status 403) :
    isAuthFailure p = false := by
  cases hb : isAuthFailure p with
  | false => rfl
  | true =>
    rcases singlePageRefresh_auth_error inv p inv1 e h hb with he | he
    · exact absurd he h1
    · exact absurd he h3

/-! ### Helper lemmas about the pagination loop -/

/-- A loop run that ends in a published buffer leaves the flag exactly as
it was. -/
theorem refreshLoop_ok_invalid (pages : List PageResponse) :
    ∀ (inv : Bool) (buf : List AgentConfig) (sid : String) (cs : List ClearScrollResponse)
      (o : LoopOut) (b : List AgentConfig),
      refreshLoop inv buf sid cs pages = some o → o.outcome = Except.ok b →
      o.invalidESCfg = inv := by
  induction pages with
  | nil => intro inv buf sid cs o b h _; simp [refreshLoop] at h
  | cons page rest ih =>
    intro inv buf sid cs o b h hok
    rw [refreshLoop] at h
    split at h
    case h_1 inv1 e hsp =>
      injection h with h2
      rw [← h2] at hok
      simp at hok
    case h_2 inv1 result hsp =>
      by_cases hlen : result.hits.length = 0
      · rw [if_pos hlen] at h
        injection h with h2
        rw [← h2]
        exact singlePageRefresh_ok_invalid inv page inv1 result hsp
      · rw [if_neg hlen] at h
        rcases Option.map_eq_some'.mp h with ⟨o1, ho1, hfo⟩
        rw [← hfo] at hok ⊢
        have hinv1 : inv1 = inv := by
          rcases hok2 : o1.outcome with e1 | b1
          · simp [hok2] at hok
          · exact singlePageRefresh_ok_invalid inv page inv1 result hsp
        rw [← hinv1]
        rcases hok2 : o1.outcome with e1 | b1
        · simp [hok2] at hok
        · exact ih inv1 _ _ cs o1 b1 ho1 hok2

/-- A loop run that ends in a published buffer produced exactly the
spec-side gathered records, appended to the starting buffer. -/
theorem refreshLoop_ok_gathered (pages : List PageResponse) :
    ∀ (inv : Bool) (buf : List AgentConfig) (sid : String) (cs : List ClearScrollResponse)
      (o : LoopOut) (b : List AgentConfig),
      refreshLoop inv buf sid cs pages = some o → o.outcome = Except.ok b →
      ∃ l, gatheredRecords pages = some l ∧ b = buf ++ l := by
  induction pages with
  | nil => intro inv buf sid cs o b h _; simp [refreshLoop] at h
  | cons page rest ih =>
    intro inv buf sid cs o b h hok
    rw [refreshLoop] at h
    split at h
    case h_1 inv1 e hsp =>
      injection h with h2
      rw [← h2] at hok
      simp at hok
    case h_2 inv1 result hsp =>
      rcases singlePageRefresh_ok_page inv page inv1 result hsp with ⟨code, hpage, hcode⟩
      by_cases hlen : result.hits.length = 0
      · rw [if_pos hlen] at h
        injection h with h2
        rw [← h2] at hok
        simp only [Except.ok.injEq] at hok
        refine ⟨[], ?_, ?_⟩
        · rw [hpage]
          simp [gatheredRecords, hcode, hlen]
        · rw [← hok, List.length_eq_zero.mp hlen]
          simp
      · rw [if_neg hlen] at h
        rcases Option.map_eq_some'.mp h with ⟨o1, ho1, hfo⟩
        rw [← hfo] at hok
        rcases hok2 : o1.outcome with e1 | b1
        · simp [hok2] at hok
        · have hb : b = b1 := by
            rw [hok2] at hok
            simpa using hok.symm
          rcases ih inv1 _ _ cs o1 b1 ho1 hok2 with ⟨l1, hl1, hbuf⟩
          refine ⟨result.hits.map hitToAgentConfig ++ l1, ?_, ?_⟩
          · rw [hpage]
            simp only [gatheredRecords, if_pos hcode, if_neg hlen, hl1, Option.map_some']
          · rw [hb, hbuf, List.append_assoc]

/-- The loop performs a cursor cleanup exactly on its error exit. -/
theorem refreshLoop_csCalls (pages : List PageResponse) :
    ∀ (inv : Bool) (buf : List AgentConfig) (sid : String) (cs : List ClearScrollResponse)
      (o : LoopOut),
      refreshLoop inv buf sid cs pages = some o →
      o.clearScrollCalls = (match o.outcome with
        | Except.error _ => 1
        | Except.ok _ => 0) := by
  induction pages with
  | nil => intro inv buf sid cs o h; simp [refreshLoop] at h
  | cons page rest ih =>
    intro inv buf sid cs o h
    rw [refreshLoop] at h
    split at h
    case h_1 inv1 e hsp =>
      injection h with h2
      rw [← h2]
    case h_2 inv1 result hsp =>
      by_cases hlen : result.hits.length = 0
      · rw [if_pos hlen] at h
        injection h with h2
        rw [← h2]
      · rw [if_neg hlen] at h
        rcases Option.map_eq_some'.mp h with ⟨o1, ho1, hfo⟩
        rw [← hfo]
        exact ih inv1 _ _ cs o1 ho1

/-- The cleanup responses supplied by the environment influence nothing in
the loop output but the log lines. -/
theorem refreshLoop_cs_core (pages : List PageResponse) :
    ∀ (inv : Bool) (buf : List AgentConfig) (sid : String)
      (cs cs' : List ClearScrollResponse),
      (refreshLoop inv buf sid cs' pages).map LoopOut.core =
        (refreshLoop inv buf sid cs pages).map LoopOut.core := by
  induction pages with
  | nil => intro inv buf sid cs cs'; simp [refreshLoop]
  | cons page rest ih =>
    intro inv buf sid cs cs'
    rw [refreshLoop, refreshLoop]
    rcases hsp : singlePageRefresh inv page with ⟨inv1, res⟩
    cases res with
    | error e => simp [LoopOut.core]
    | ok result =>
      by_cases hlen : result.hits.length = 0
      · simp [hlen]
      · simp only [if_neg hlen]
        have hih := ih inv1 (buf ++ result.hits.map hitToAgentConfig) result.scroll_id cs cs'
        have hcomp : ∀ (X : Option LoopOut),
            (X.map (fun o => { o with pagesUsed := o.pagesUsed + 1 })).map LoopOut.core =
              (X.map LoopOut.core).map (fun c => (c.1, c.2.1, c.2.2.1 + 1, c.2.2.2)) := by
          intro X; cases X <;> simp [LoopOut.core]
        rw [hcomp, hcomp, hih]

/-- Once the flag is up it stays up through any loop run. -/
theorem refreshLoop_invalid_mono (pages : List PageResponse) :
    ∀ (inv : Bool) (buf : List AgentConfig) (sid : String)
      (cs : List ClearScrollResponse) (o : LoopOut),
      refreshLoop inv buf sid cs pages = some o → inv = true →
      o.invalidESCfg = true := by
  induction pages with
  | nil => intro inv buf sid cs o h _; simp [refreshLoop] at h
  | cons page rest ih =>
    intro inv buf sid cs o h hinv
    rw [refreshLoop] at h
    split at h
    case h_1 inv1 e hsp =>
      injection h with h2
      rw [← h2]
      have hfst := singlePageRefresh_fst_eq inv page inv1 _ hsp
      show inv1 = true
      rw [hfst, hinv, Bool.or_true]
    case h_2 inv1 result hsp =>
      have hinv1 : inv1 = inv := singlePageRefresh_ok_invalid inv page inv1 result hsp
      by_cases hlen : result.hits.length = 0
      · rw [if_pos hlen] at h
        injection h with h2
        rw [← h2]
        exact hinv1.trans hinv
      · rw [if_neg hlen] at h
        rcases Option.map_eq_some'.mp h with ⟨o1, ho1, hfo⟩
        rw [← hfo]
        exact ih inv1 _ _ cs o1 ho1 (hinv1.trans hinv)

/-- The flag comes up during a loop run only if it was already up or some
consumed page was a 401/403 response. -/
theorem refreshLoop_invalid_source (pages : List PageResponse) :
    ∀ (inv : Bool) (buf : List AgentConfig) (sid : String)
      (cs : List ClearScrollResponse) (o : LoopOut),
      refreshLoop inv buf sid cs pages = some o → o.invalidESCfg = true →
      inv = true ∨ ∃ p ∈ pages, isAuthFailure p = true := by
  induction pages with
  | nil => intro inv buf sid cs o h _; simp [refreshLoop] at h
  | cons page rest ih =>
    intro inv buf sid cs o h ho
    rw [refreshLoop] at h
    split at h
    case h_1 inv1 e hsp =>
      injection h with h2
      have hfst := singlePageRefresh_fst_eq inv page inv1 _ hsp
      have h1 : inv1 = true := by rw [← h2] at ho; exact ho
      rw [hfst] at h1
      cases ha : isAuthFailure page with
      | true => exact Or.inr ⟨page, List.mem_cons_self page rest, ha⟩
      | false =>
        rw [ha, Bool.false_or] at h1
        exact Or.inl h1
    case h_2 inv1 result hsp =>
      have hinv1 : inv1 = inv := singlePageRefresh_ok_invalid inv page inv1 result hsp
      by_cases hlen : result.hits.length = 0
      · rw [if_pos hlen] at h
        injection h with h2
        have h1 : inv1 = true := by rw [← h2] at ho; exact ho
        exact Or.inl (hinv1 ▸ h1)
      · rw [if_neg hlen] at h
        rcases Option.map_eq_some'.mp h with ⟨o1, ho1, hfo⟩
        have ho1t : o1.invalidESCfg = true := by rw [← hfo] at ho; exact ho
        rcases ih inv1 _ _ cs o1 ho1 ho1t with hi | ⟨p, hp, hpa⟩
        · exact Or.inl (hinv1 ▸ hi)
        · exact Or.inr ⟨p, List.mem_cons_of_mem page hp, hpa⟩

/-- A loop run that fails with anything but a 401/403 status error leaves
the flag exactly as it was. -/
theorem refreshLoop_transient_error (pages : List PageResponse) :
    ∀ (inv : Bool) (buf : List AgentConfig) (sid : String)
      (cs : List ClearScrollResponse) (o : LoopOut) (e : FetchPageError),
      refreshLoop inv buf sid cs pages = some o → o.outcome = Except.error e →
      e ≠ FetchPageError.status 401 → e ≠ FetchPageError.status 403 →
      o.invalidESCfg = inv := by
  induction pages with
  | nil => intro inv buf sid cs o e h _ _ _; simp [refreshLoop] at h
  | cons page rest ih =>
    intro inv buf sid cs o e h hout h1 h3
    rw [refreshLoop] at h
    split at h
    case h_1 inv1 e0 hsp =>
      injection h with h2
      have he : e0 = e := by
        rw [← h2] at hout
        simpa using hout
      rw [he] at hsp
      have hfst := singlePageRefresh_fst_eq inv page inv1 _ hsp
      have hAuth := singlePageRefresh_transient_error inv page inv1 e hsp h1 h3
      rw [← h2]
      show inv1 = inv
      rw [hfst, hAuth, Bool.false_or]
    case h_2 inv1 result hsp =>
      have hinv1 : inv1 = inv := singlePageRefresh_ok_invalid inv page inv1 result hsp
      by_cases hlen : result.hits.length = 0
      · rw [if_pos hlen] at h
        injection h with h2
        rw [← h2] at hout
        simp at hout
      · rw [if_neg hlen] at h
        rcases Option.map_eq_some'.mp h with ⟨o1, ho1, hfo⟩
        have hout1 : o1.outcome = Except.error e := by rw [← hfo] at hout; exact hout
        have := ih inv1 _ _ cs o1 e ho1 hout1 h1 h3
        rw [← hfo]
        show o1.invalidESCfg = inv
        rw [this, hinv1]

/-- Running the loop on any prefix of successfully decoded non-empty pages
followed by a zero-hit page stops exactly at that page — whatever comes
after it is never requested — returning the accumulated records. -/
theorem refreshLoop_stop (pre : List PageResponse) :
    ∀ (inv : Bool) (buf : List AgentConfig) (sid : String) (cs : List ClearScrollResponse)
      (p : PageResponse), (∀ q ∈ pre, isNonemptyOkPage q = true) → isEmptyOkPage p = true →
      ∃ o : LoopOut,
        (∀ post : List PageResponse, refreshLoop inv buf sid cs (pre ++ p :: post) = some o) ∧
        o.outcome = Except.ok (buf ++ pre.flatMap pageRecords) ∧
        o.pagesUsed = pre.length + 1 ∧
        o.invalidESCfg = inv ∧
        o.clearScrollCalls = 0 := by
  induction pre with
  | nil =>
    intro inv buf sid cs p hpre hp
    rcases p with _ | ⟨code, body⟩
    · simp [isEmptyOkPage] at hp
    rcases body with _ | r
    · simp [isEmptyOkPage] at hp
    simp only [isEmptyOkPage, Bool.and_eq_true, decide_eq_true_eq, beq_iff_eq] at hp
    obtain ⟨hcode, hlen⟩ := hp
    have hsp : singlePageRefresh inv (PageResponse.response code (ResponseBody.valid r)) =
        (inv, Except.ok r) := by
      simp [singlePageRefresh, Nat.not_le.mpr hcode]
    refine ⟨{ invalidESCfg := inv, outcome := Except.ok (buf ++ r.hits.map hitToAgentConfig),
              pagesUsed := 1, clearScrollCalls := 0, logs := [],
              scrollID := r.scroll_id }, ?_, ?_, rfl, rfl, rfl⟩
    · intro post
      rw [List.nil_append, refreshLoop, hsp]
      simp [hlen]
    · have : r.hits = [] := List.length_eq_zero.mp hlen
      simp [this]
  | cons q pre' ih =>
    intro inv buf sid cs p hpre hp
    have hq : isNonemptyOkPage q = true := hpre q (List.mem_cons_self q pre')
    rcases q with _ | ⟨code, body⟩
    · simp [isNonemptyOkPage] at hq
    rcases body with _ | r
    · simp [isNonemptyOkPage] at hq
    simp only [isNonemptyOkPage, Bool.and_eq_true, decide_eq_true_eq,
      Bool.not_eq_true', beq_eq_false_iff_ne, ne_eq] at hq
    obtain ⟨hcode, hlen⟩ := hq
    have hsp : singlePageRefresh inv (PageResponse.response code (ResponseBody.valid r)) =
        (inv, Except.ok r) := by
      simp [singlePageRefresh, Nat.not_le.mpr hcode]
    rcases ih inv (buf ++ r.hits.map hitToAgentConfig) r.scroll_id cs p
        (fun x hx => hpre x (List.mem_cons_of_mem _ hx)) hp with
      ⟨o1, hpost, hout, hpages, hinv, hcs⟩
    refine ⟨{ o1 with pagesUsed := o1.pagesUsed + 1 }, ?_, ?_, ?_, hinv, hcs⟩
    · intro post
      rw [List.cons_append, refreshLoop, hsp]
      simp only [if_neg hlen, hpost post, Option.map_some']
    · show o1.outcome = _
      rw [hout, List.flatMap_cons, pageRecords, ← List.append_assoc]
    · show o1.pagesUsed + 1 = _
      rw [hpages, List.length_cons]

/-! ### Helper lemmas about `refreshCache` -/

/-- Inversion: every completed cycle is either the loop's error exit
(flag updated, cache and readiness untouched) or its success exit
(buffer published, readiness stored true, one more cleanup call). -/
theorem refreshCache_inversion (f : ElasticsearchFetcher) (pages : List PageResponse)
    (cs : List ClearScrollResponse) (cr : CycleResult)
    (h : refreshCache f pages cs = some cr) :
    ∃ o : LoopOut, refreshLoop f.invalidESCfg [] "" cs pages = some o ∧
      ((∃ e, o.outcome = Except.error e ∧
          cr = { state := { f with invalidESCfg := o.invalidESCfg }, err := some e,
                 clearScrollCalls := o.clearScrollCalls, pagesUsed := o.pagesUsed,
                 logs := o.logs }) ∨
        (∃ buffer, o.outcome = Except.ok buffer ∧
          cr = { state := { cache := buffer, invalidESCfg := o.invalidESCfg,
                            cacheInitialized := true },
                 err := none, clearScrollCalls := o.clearScrollCalls + 1,
                 pagesUsed := o.pagesUsed,
                 logs := o.logs ++ (clearScroll (cs.headD ClearScrollResponse.ok)).toList })) := by
  unfold refreshCache at h
  split at h
  · exact absurd h (by simp)
  case h_2 o hl =>
    split at h
    case h_1 e hout =>
      injection h with h2
      exact ⟨o, hl, Or.inl ⟨e, hout, h2.symm⟩⟩
    case h_2 buffer hout =>
      injection h with h2
      exact ⟨o, hl, Or.inr ⟨buffer, hout, h2.symm⟩⟩

/-- A cycle that starts with the flag up ends with the flag up. -/
theorem refreshCache_invalid_mono (f : ElasticsearchFetcher) (pages : List PageResponse)
    (cs : List ClearScrollResponse) (cr : CycleResult)
    (h : refreshCache f pages cs = some cr) (hf : f.invalidESCfg = true) :
    cr.state.invalidESCfg = true := by
  rcases refreshCache_inversion f pages cs cr h with ⟨o, hl, hcase⟩
  have ho := refreshLoop_invalid_mono pages f.invalidESCfg [] "" cs o hl hf
  rcases hcase with ⟨e, _, hcr⟩ | ⟨buffer, _, hcr⟩ <;> rw [hcr] <;> exact ho

/-- The flag comes up during a cycle only if it was already up or some
consumed page was a 401/403 response. -/
theorem refreshCache_invalid_source (f : ElasticsearchFetcher) (pages : List PageResponse)
    (cs : List ClearScrollResponse) (cr : CycleResult)
    (h : refreshCache f pages cs = some cr) (hc : cr.state.invalidESCfg = true) :
    f.invalidESCfg = true ∨ ∃ p ∈ pages, isAuthFailure p = true := by
  rcases refreshCache_inversion f pages cs cr h with ⟨o, hl, hcase⟩
  have ho : o.invalidESCfg = true := by
    rcases hcase with ⟨e, _, hcr⟩ | ⟨buffer, _, hcr⟩ <;> rw [hcr] at hc <;> exact hc
  exact refreshLoop_invalid_source pages f.invalidESCfg [] "" cs o hl ho

/-- A cycle that starts initialized ends initialized. -/
theorem refreshCache_init_mono (f : ElasticsearchFetcher) (pages : List PageResponse)
    (cs : List ClearScrollResponse) (cr : CycleResult)
    (h : refreshCache f pages cs = some cr) (hf : f.cacheInitialized = true) :
    cr.state.cacheInitialized = true := by
  rcases refreshCache_inversion f pages cs cr h with ⟨o, hl, hcase⟩
  rcases hcase with ⟨e, _, hcr⟩ | ⟨buffer, _, hcr⟩
  · rw [hcr]
    exact hf
  · rw [hcr]

/-- A cycle can turn the initialized flag on only by succeeding. -/
theorem refreshCache_init_source (f : ElasticsearchFetcher) (pages : List PageResponse)
    (cs : List ClearScrollResponse) (cr : CycleResult)
    (h : refreshCache f pages cs = some cr) (hc : cr.state.cacheInitialized = true) :
    f.cacheInitialized = true ∨ cr.err = none := by
  rcases refreshCache_inversion f pages cs cr h with ⟨o, hl, hcase⟩
  rcases hcase with ⟨e, _, hcr⟩ | ⟨buffer, _, hcr⟩
  · rw [hcr] at hc
    exact Or.inl hc
  · rw [hcr]
    exact Or.inr rfl

/-- A failed cycle leaves the cache and the initialized flag untouched. -/
theorem refreshCache_err_frame (f : ElasticsearchFetcher) (pages : List PageResponse)
    (cs : List ClearScrollResponse) (cr : CycleResult) (e : FetchPageError)
    (h : refreshCache f pages cs = some cr) (he : cr.err = some e) :
    cr.state.cache = f.cache ∧ cr.state.cacheInitialized = f.cacheInitialized := by
  rcases refreshCache_inversion f pages cs cr h with ⟨o, hl, hcase⟩
  rcases hcase with ⟨e0, _, hcr⟩ | ⟨buffer, _, hcr⟩
  · rw [hcr]
    exact ⟨rfl, rfl⟩
  · rw [hcr] at he
    simp at he

/-- A cycle failing with anything but a 401/403 status error also leaves
the invalid flag untouched. -/
theorem refreshCache_transient_frame (f : ElasticsearchFetcher) (pages : List PageResponse)
    (cs : List ClearScrollResponse) (cr : CycleResult) (e : FetchPageError)
    (h : refreshCache f pages cs = some cr) (he : cr.err = some e)
    (h1 : e ≠ FetchPageError.status 401) (h3 : e ≠ FetchPageError.status 403) :
    cr.state.invalidESCfg = f.invalidESCfg := by
  rcases refreshCache_inversion f pages cs cr h with ⟨o, hl, hcase⟩
  rcases hcase with ⟨e0, hout, hcr⟩ | ⟨buffer, hout, hcr⟩
  · have he0 : e0 = e := by
      rw [hcr] at he
      simpa using he
    rw [he0] at hout
    rw [hcr]
    exact refreshLoop_transient_error pages f.invalidESCfg [] "" cs o e hl hout h1 h3
  · rw [hcr] at he
    simp at he

/-- Every completed cycle makes exactly one cursor-cleanup call. -/
theorem refreshCache_csCalls (f : ElasticsearchFetcher) (pages : List PageResponse)
    (cs : List ClearScrollResponse) (cr : CycleResult)
    (h : refreshCache f pages cs = some cr) :
    cr.clearScrollCalls = 1 := by
  rcases refreshCache_inversion f pages cs cr h with ⟨o, hl, hcase⟩
  have hc := refreshLoop_csCalls pages f.invalidESCfg [] "" cs o hl
  rcases hcase with ⟨e, hout, hcr⟩ | ⟨buffer, hout, hcr⟩
  · rw [hcr]
    show o.clearScrollCalls = 1
    rw [hc, hout]
  · rw [hcr]
    show o.clearScrollCalls + 1 = 1
    rw [hc, hout]

/-- The cleanup responses supplied by the environment influence nothing in
the cycle outcome but the log lines. -/
theorem refreshCache_cs_independent (f : ElasticsearchFetcher) (pages : List PageResponse)
    (cs cs' : List ClearScrollResponse) (cr : CycleResult)
    (h : refreshCache f pages cs = some cr) :
    ∃ cr', refreshCache f pages cs' = some cr' ∧ cr'.state = cr.state ∧
      cr'.err = cr.err ∧ cr'.clearScrollCalls = cr.clearScrollCalls ∧
      cr'.pagesUsed = cr.pagesUsed := by
  rcases refreshCache_inversion f pages cs cr h with ⟨o, hl, hcase⟩
  have hcore := refreshLoop_cs_core pages f.invalidESCfg [] "" cs cs'
  rw [hl] at hcore
  rcases Option.map_eq_some'.mp hcore with ⟨o', hl', hco⟩
  simp only [LoopOut.core, Prod.mk.injEq] at hco
  obtain ⟨hinv, hout, hpages, hcs⟩ := hco
  rcases hcase with ⟨e, hoe, hcr⟩ | ⟨buffer, hoe, hcr⟩
  · refine ⟨{ state := { f with invalidESCfg := o'.invalidESCfg }, err := some e,
              clearScrollCalls := o'.clearScrollCalls, pagesUsed := o'.pagesUsed,
              logs := o'.logs }, ?_, ?_⟩
    · simp only [refreshCache, hl', hout, hoe]
    · rw [hcr]
      simp [hinv, hpages, hcs]
  · refine ⟨{ state := { cache := buffer, invalidESCfg := o'.invalidESCfg,
                         cacheInitialized := true },
              err := none, clearScrollCalls := o'.clearScrollCalls + 1,
              pagesUsed := o'.pagesUsed,
              logs := o'.logs ++ (clearScroll (cs'.headD ClearScrollResponse.ok)).toList },
      ?_, ?_⟩
    · simp only [refreshCache, hl', hout, hoe]
    · rw [hcr]
      simp [hinv, hpages, hcs]

/-! ### Helper lemmas about `Run` -/

/-- `Run` returns an error only at a cancellation event, and the error is
that event's reason. -/
theorem Run_some_cancelled (events : List RunEvent) :
    ∀ (f st : ElasticsearchFetcher) (r : CtxError),
      Run f events = some (st, some r) → RunEvent.cancelled r ∈ events := by
  induction events with
  | nil => intro f st r h; simp [Run] at h
  | cons e rest ih =>
    intro f st r h
    cases e with
    | cancelled r0 =>
      rw [Run] at h
      injection h with h2
      have hr : r0 = r := by
        have := congrArg Prod.snd h2
        simpa using this
      subst hr
      exact List.mem_cons_self _ _
    | tick pages cs =>
      rw [Run] at h
      split at h
      · exact absurd h (by simp)
      case h_2 cr hrc =>
        split at h
        case h_1 e0 herr =>
          split at h
          · injection h with h2
            have := congrArg Prod.snd h2
            simp at this
          · exact List.mem_cons_of_mem _ (ih cr.state st r h)
        case h_2 herr =>
          exact List.mem_cons_of_mem _ (ih cr.state st r h)

/-- When `Run` returns without error, the stopping state has the invalid
flag up (the loop stopped because the config was marked invalid). -/
theorem Run_some_nil_invalid (events : List RunEvent) :
    ∀ (f st : ElasticsearchFetcher),
      Run f events = some (st, none) → st.invalidESCfg = true := by
  induction events with
  | nil => intro f st h; simp [Run] at h
  | cons e rest ih =>
    intro f st h
    cases e with
    | cancelled r0 =>
      rw [Run] at h
      injection h with h2
      have := congrArg Prod.snd h2
      simp at this
    | tick pages cs =>
      rw [Run] at h
      split at h
      · exact absurd h (by simp)
      case h_2 cr hrc =>
        split at h
        case h_1 e0 herr =>
          split at h
          case isTrue hinv =>
            injection h with h2
            have hst := congrArg Prod.fst h2
            simp at hst
            rw [← hst]
            exact hinv
          case isFalse hinv =>
            exact ih cr.state st h
        case h_2 herr =>
          exact ih cr.state st h

/-- Both flags are monotone along any `Run` execution. -/
theorem Run_flags_mono (events : List RunEvent) :
    ∀ (f st : ElasticsearchFetcher) (res : Option CtxError),
      Run f events = some (st, res) →
      (f.invalidESCfg = true → st.invalidESCfg = true) ∧
      (f.cacheInitialized = true → st.cacheInitialized = true) := by
  induction events with
  | nil => intro f st res h; simp [Run] at h
  | cons e rest ih =>
    intro f st res h
    cases e with
    | cancelled r0 =>
      rw [Run] at h
      injection h with h2
      have hst := congrArg Prod.fst h2
      simp at hst
      rw [← hst]
      exact ⟨fun hx => hx, fun hx => hx⟩
    | tick pages cs =>
      rw [Run] at h
      split at h
      · exact absurd h (by simp)
      case h_2 cr hrc =>
        have hmono1 := refreshCache_invalid_mono f pages cs cr hrc
        have hmono2 := refreshCache_init_mono f pages cs cr hrc
        split at h
        case h_1 e0 herr =>
          split at h
          case isTrue hinv =>
            injection h with h2
            have hst := congrArg Prod.fst h2
            simp at hst
            rw [← hst]
            exact ⟨fun hx => hmono1 hx, fun hx => hmono2 hx⟩
          case isFalse hinv =>
            have hih := ih cr.state st res h
            exact ⟨fun hx => hih.1 (hmono1 hx), fun hx => hih.2 (hmono2 hx)⟩
        case h_2 herr =>
          have hih := ih cr.state st res h
          exact ⟨fun hx => hih.1 (hmono1 hx), fun hx => hih.2 (hmono2 hx)⟩

/-- With no cancellation event and no 401/403 page anywhere in the
schedule, `Run` keeps looping: transient failures never make it return. -/
theorem Run_no_auth_none (events : List RunEvent) :
    ∀ (f : ElasticsearchFetcher), f.invalidESCfg = false →
      (∀ r, RunEvent.cancelled r ∉ events) →
      (∀ pages cs, RunEvent.tick pages cs ∈ events → ∀ p ∈ pages, isAuthFailure p = false) →
      Run f events = none := by
  induction events with
  | nil => intro f _ _ _; rw [Run]
  | cons e rest ih =>
    intro f hf hnc ht
    cases e with
    | cancelled r0 => exact absurd (List.mem_cons_self _ _) (hnc r0)
    | tick pages cs =>
      rw [Run]
      rcases hrc : refreshCache f pages cs with _ | cr
      · rfl
      · have hinv : cr.state.invalidESCfg = false := by
          rcases hx : cr.state.invalidESCfg with _ | _
          · rfl
          · rcases refreshCache_invalid_source f pages cs cr hrc hx with hy | ⟨p, hp, hpa⟩
            · rw [hf] at hy
              exact absurd hy (by simp)
            · have := ht pages cs (List.mem_cons_self _ _) p hp
              rw [hpa] at this
              exact absurd this (by simp)
        have hrest := ih cr.state hinv
          (fun r hr => hnc r (List.mem_cons_of_mem _ hr))
          (fun ps c hm => ht ps c (List.mem_cons_of_mem _ hm))
        rcases herr : cr.err with _ | e0 <;> simp [herr, hinv, hrest]

/-! ### Claim theorems -/

/-- C1: Fetch's outcome is exactly the readiness decision table: with the
cache initialized, Fetch succeeds by delegating the query and the current
snapshot to the Matcher, regardless of the invalid flag; uninitialized
with invalid=true it fails with the ConfigInvalid error; uninitialized
with invalid=false it fails with the NotReady error. -/
theorem fetch_readiness_decision_table {Query Result : Type}
    (matchAgentConfig : Query → List AgentConfig → Result)
    (f : ElasticsearchFetcher) (query : Query) :
    (f.cacheInitialized = true →
      Fetch matchAgentConfig f query = Except.ok (matchAgentConfig query f.cache)) ∧
    (f.cacheInitialized = false → f.invalidESCfg = true →
      Fetch matchAgentConfig f query = Except.error ErrNoValidElasticsearchConfig) ∧
    (f.cacheInitialized = false → f.invalidESCfg = false →
      Fetch matchAgentConfig f query = Except.error ErrInfrastructureNotReady) := by
  refine ⟨?_, ?_, ?_⟩
  · intro h1
    simp [Fetch, h1]
  · intro h1 h2
    simp [Fetch, h1, h2]
  · intro h1 h2
    simp [Fetch, h1, h2]

/-- Witness for C1: the three rows of the table at concrete states,
including the initialized-and-invalid state served from cache. -/
theorem fetch_readiness_decision_table_witness :
    (Fetch (fun (_ : Nat) cache => cache)
        { cache := [], invalidESCfg := true, cacheInitialized := true } 0 =
      Except.ok []) ∧
    (Fetch (fun (_ : Nat) cache => cache)
        { cache := [], invalidESCfg := true, cacheInitialized := false } 0 =
      Except.error ErrNoValidElasticsearchConfig) ∧
    (Fetch (fun (_ : Nat) cache => cache)
        { cache := [], invalidESCfg := false, cacheInitialized := false } 0 =
      Except.error ErrInfrastructureNotReady) :=
  ⟨(fetch_readiness_decision_table (fun (_ : Nat) cache => cache)
      { cache := [], invalidESCfg := true, cacheInitialized := true } 0).1 rfl,
   (fetch_readiness_decision_table (fun (_ : Nat) cache => cache)
      { cache := [], invalidESCfg := true, cacheInitialized := false } 0).2.1 rfl rfl,
   (fetch_readiness_decision_table (fun (_ : Nat) cache => cache)
      { cache := [], invalidESCfg := false, cacheInitialized := false } 0).2.2 rfl rfl⟩

/-- C2: per page response, a 401 or 403 status sets the invalid flag to
true (and yields an error), and every other outcome leaves the flag
unchanged; transport errors (including deadline exceeded), statuses at or
above 400, and malformed bodies each yield their error (and are hence
transient unless 401/403). -/
theorem page_error_classification (inv : Bool) (resp : PageResponse) :
    (isAuthFailure resp = true →
      (singlePageRefresh inv resp).1 = true ∧
      ∃ e, (singlePageRefresh inv resp).2 = Except.error e) ∧
    (isAuthFailure resp = false → (singlePageRefresh inv resp).1 = inv) ∧
    (resp = PageResponse.transportError →
      (singlePageRefresh inv resp).2 = Except.error FetchPageError.transport) ∧
    (∀ code body, resp = PageResponse.response code body → 400 ≤ code →
      (singlePageRefresh inv resp).2 = Except.error (FetchPageError.status code)) ∧
    (∀ code, resp = PageResponse.response code ResponseBody.malformed → code < 400 →
      (singlePageRefresh inv resp).2 = Except.error FetchPageError.decode) := by
  refine ⟨?_, ?_, ?_, ?_, ?_⟩
  · intro hauth
    constructor
    · rw [singlePageRefresh_fst, hauth, Bool.true_or]
    · rcases resp with _ | ⟨code, body⟩
      · simp [isAuthFailure] at hauth
      · simp only [isAuthFailure, Bool.or_eq_true, beq_iff_eq] at hauth
        have h400 : 400 ≤ code := by omega
        exact ⟨FetchPageError.status code, by simp [singlePageRefresh, if_pos h400]⟩
  · intro hna
    rw [singlePageRefresh_fst, hna, Bool.false_or]
  · rintro rfl
    simp [singlePageRefresh]
  · rintro code body rfl h400
    simp [singlePageRefresh, if_pos h400]
  · rintro code rfl hlt
    have hn : ¬ 400 ≤ code := by omega
    simp [singlePageRefresh, hn]

/-- Witness for C2: a 401 page raises the flag and errors; a 500 page
leaves the flag down; a transport error yields the transport error. -/
theorem page_error_classification_witness :
    ((singlePageRefresh false sampleAuthPage).1 = true ∧
      ∃ e, (singlePageRefresh false sampleAuthPage).2 = Except.error e) ∧
    (singlePageRefresh false sampleServerErrorPage).1 = false ∧
    (singlePageRefresh false PageResponse.transportError).2 =
      Except.error FetchPageError.transport :=
  ⟨(page_error_classification false sampleAuthPage).1 (by decide),
   (page_error_classification false sampleServerErrorPage).2.1 (by decide),
   (page_error_classification false PageResponse.transportError).2.2.1 rfl⟩

/-- C3: a successful refresh cycle publishes exactly the records gathered
from that cycle's pages in page-arrival order (`gatheredRecords`, which
does not depend on the prior snapshot, so nothing is carried over from
an earlier cycle). -/
theorem successful_cycle_publishes_gathered (f : ElasticsearchFetcher)
    (pages : List PageResponse) (cs : List ClearScrollResponse) (cr : CycleResult)
    (h : refreshCache f pages cs = some cr) (hok : cr.err = none) :
    gatheredRecords pages = some cr.state.cache := by
  rcases refreshCache_inversion f pages cs cr h with ⟨o, hl, hcase⟩
  rcases hcase with ⟨e, hout, hcr⟩ | ⟨buffer, hout, hcr⟩
  · rw [hcr] at hok
    simp at hok
  · rcases refreshLoop_ok_gathered pages f.invalidESCfg [] "" cs o buffer hl hout with
      ⟨l, hg, hb⟩
    have hb1 : buffer = l := by simpa using hb
    have hcache : cr.state.cache = buffer := by rw [hcr]
    rw [hcache, hg]
    exact congrArg some hb1.symm

/-- Witness for C3: a one-hit page followed by the terminating empty page
publishes exactly that one record. -/
theorem successful_cycle_publishes_gathered_witness :
    gatheredRecords [samplePage, sampleEmptyPage] = some [hitToAgentConfig sampleHit] := by
  have h := successful_cycle_publishes_gathered NewElasticsearchFetcher
    [samplePage, sampleEmptyPage] []
    { state := { cache := [hitToAgentConfig sampleHit], invalidESCfg := false,
                 cacheInitialized := true },
      err := none, clearScrollCalls := 1, pagesUsed := 2, logs := [] }
    rfl rfl
  exact h

/-- C4: `Run` returns a non-nil error only as the reason of an observed
cancellation event; when a cycle errs with the invalid flag set, `Run`
returns nil at that point (self-termination); and with no cancellation
and no 401/403 page anywhere, `Run` never returns — transient failures
are absorbed. -/
theorem run_return_classification :
    (∀ (f st : ElasticsearchFetcher) (events : List RunEvent) (res : Option CtxError),
      Run f events = some (st, res) →
      (∀ r, res = some r → RunEvent.cancelled r ∈ events) ∧
      (res = none → st.invalidESCfg = true)) ∧
    (∀ (f : ElasticsearchFetcher) (pages : List PageResponse)
      (cs : List ClearScrollResponse) (cr : CycleResult) (rest : List RunEvent)
      (e : FetchPageError),
      refreshCache f pages cs = some cr → cr.err = some e →
      cr.state.invalidESCfg = true →
      Run f (RunEvent.tick pages cs :: rest) = some (cr.state, none)) ∧
    (∀ (f : ElasticsearchFetcher) (events : List RunEvent),
      f.invalidESCfg = false →
      (∀ r, RunEvent.cancelled r ∉ events) →
      (∀ pages cs, RunEvent.tick pages cs ∈ events → ∀ p ∈ pages, isAuthFailure p = false) →
      Run f events = none) := by
  refine ⟨?_, ?_, ?_⟩
  · intro f st events res h
    constructor
    · intro r hr
      rw [hr] at h
      exact Run_some_cancelled events f st r h
    · intro hn
      rw [hn] at h
      exact Run_some_nil_invalid events f st h
  · intro f pages cs cr rest e hrc herr hinv
    simp [Run, hrc, herr, hinv]
  · intro f events
    exact Run_no_auth_none events f

/-- Witness for C4: a cancellation event returns its reason; a 401 tick
makes `Run` self-terminate with no error; a 500 tick leaves `Run`
looping. -/
theorem run_return_classification_witness :
    (RunEvent.cancelled CtxError.canceled ∈ [RunEvent.cancelled CtxError.canceled]) ∧
    (Run NewElasticsearchFetcher [RunEvent.tick [sampleAuthPage] []] =
      some ({ cache := [], invalidESCfg := true, cacheInitialized := false }, none)) ∧
    (Run NewElasticsearchFetcher [RunEvent.tick [sampleServerErrorPage] []] = none) := by
  refine ⟨?_, ?_, ?_⟩
  · exact (run_return_classification.1 NewElasticsearchFetcher NewElasticsearchFetcher
      [RunEvent.cancelled CtxError.canceled] (some CtxError.canceled) rfl).1
      CtxError.canceled rfl
  · exact run_return_classification.2.1 NewElasticsearchFetcher [sampleAuthPage] []
      { state := { cache := [], invalidESCfg := true, cacheInitialized := false },
        err := some (FetchPageError.status 401), clearScrollCalls := 1, pagesUsed := 1,
        logs := [] } [] (FetchPageError.status 401) rfl rfl rfl
  · refine run_return_classification.2.2 NewElasticsearchFetcher
      [RunEvent.tick [sampleServerErrorPage] []] rfl ?_ ?_
    · intro r hr
      simp at hr
    · intro ps c hm p hp
      simp only [List.mem_singleton] at hm
      injection hm with hps hcs
      subst hps
      simp only [List.mem_singleton] at hp
      subst hp
      decide

/-- C5: every completed refresh cycle makes exactly one cursor-cleanup
call, on success and on failure alike, and the cleanup responses never
change the cycle's published state or its success/failure outcome. -/
theorem one_cleanup_per_cycle (f : ElasticsearchFetcher) (pages : List PageResponse)
    (cs : List ClearScrollResponse) (cr : CycleResult)
    (h : refreshCache f pages cs = some cr) :
    cr.clearScrollCalls = 1 ∧
    (∀ cs', ∃ cr', refreshCache f pages cs' = some cr' ∧ cr'.state = cr.state ∧
      cr'.err = cr.err ∧ cr'.clearScrollCalls = 1) := by
  refine ⟨refreshCache_csCalls f pages cs cr h, ?_⟩
  intro cs'
  rcases refreshCache_cs_independent f pages cs cs' cr h with ⟨cr', h', hst, herr, hcs, _⟩
  refine ⟨cr', h', hst, herr, ?_⟩
  rw [hcs]
  exact refreshCache_csCalls f pages cs cr h

/-- Witness for C5: a failing cycle with a failing cleanup still counts
one cleanup call, and swapping the cleanup response changes nothing. -/
theorem one_cleanup_per_cycle_witness :
    ∃ cr', refreshCache NewElasticsearchFetcher [sampleServerErrorPage] [] = some cr' ∧
      cr'.state = { cache := [], invalidESCfg := false, cacheInitialized := false } ∧
      cr'.err = some (FetchPageError.status 500) ∧ cr'.clearScrollCalls = 1 := by
  have h := one_cleanup_per_cycle NewElasticsearchFetcher [sampleServerErrorPage]
    [ClearScrollResponse.transportError]
    { state := { cache := [], invalidESCfg := false, cacheInitialized := false },
      err := some (FetchPageError.status 500), clearScrollCalls := 1, pagesUsed := 1,
      logs := ["failed to clear scroll"] } rfl
  exact h.2 []

/-- C6: a failed refresh cycle leaves the cached snapshot and the
initialized flag unchanged, and if the error is transient (not the
401/403 status error) the invalid flag is unchanged as well. -/
theorem failed_cycle_frame (f : ElasticsearchFetcher) (pages : List PageResponse)
    (cs : List ClearScrollResponse) (cr : CycleResult) (e : FetchPageError)
    (h : refreshCache f pages cs = some cr) (he : cr.err = some e) :
    cr.state.cache = f.cache ∧ cr.state.cacheInitialized = f.cacheInitialized ∧
    (e ≠ FetchPageError.status 401 → e ≠ FetchPageError.status 403 →
      cr.state.invalidESCfg = f.invalidESCfg) := by
  rcases refreshCache_err_frame f pages cs cr e h he with ⟨h1, h2⟩
  exact ⟨h1, h2, fun hn1 hn3 => refreshCache_transient_frame f pages cs cr e h he hn1 hn3⟩

/-- Witness for C6: a transport-error cycle on an initialized fetcher
revokes nothing. -/
theorem failed_cycle_frame_witness :
    ∃ cr, refreshCache initializedFetcher [PageResponse.transportError] [] = some cr ∧
      cr.state.cache = [hitToAgentConfig sampleHit] ∧
      cr.state.cacheInitialized = true ∧ cr.state.invalidESCfg = false := by
  have h := failed_cycle_frame initializedFetcher [PageResponse.transportError] []
    { state := initializedFetcher, err := some FetchPageError.transport,
      clearScrollCalls := 1, pagesUsed := 1, logs := [] }
    FetchPageError.transport rfl rfl
  exact ⟨_, rfl, h.1, h.2.1, h.2.2 (by decide) (by decide)⟩

/-- C7: both readiness flags are monotone: across any cycle and any `Run`
execution neither flag is ever cleared, the invalid flag is only set via
a 401/403 page classification, and the initialized flag is only set by a
successful cycle. -/
theorem readiness_flags_monotone :
    (∀ (f : ElasticsearchFetcher) (pages : List PageResponse)
      (cs : List ClearScrollResponse) (cr : CycleResult),
      refreshCache f pages cs = some cr →
      (f.invalidESCfg = true → cr.state.invalidESCfg = true) ∧
      (f.cacheInitialized = true → cr.state.cacheInitialized = true) ∧
      (cr.state.invalidESCfg = true →
        f.invalidESCfg = true ∨ ∃ p ∈ pages, isAuthFailure p = true) ∧
      (cr.state.cacheInitialized = true →
        f.cacheInitialized = true ∨ cr.err = none)) ∧
    (∀ (f st : ElasticsearchFetcher) (events : List RunEvent) (res : Option CtxError),
      Run f events = some (st, res) →
      (f.invalidESCfg = true → st.invalidESCfg = true) ∧
      (f.cacheInitialized = true → st.cacheInitialized = true)) := by
  constructor
  · intro f pages cs cr h
    exact ⟨refreshCache_invalid_mono f pages cs cr h,
           refreshCache_init_mono f pages cs cr h,
           refreshCache_invalid_source f pages cs cr h,
           refreshCache_init_source f pages cs cr h⟩
  · intro f st events res h
    exact Run_flags_mono events f st res h

/-- Witness for C7: a transport-error cycle on a fetcher with both flags
up keeps both flags up. -/
theorem readiness_flags_monotone_witness :
    ∃ cr, refreshCache bothFlagsFetcher [PageResponse.transportError] [] = some cr ∧
      cr.state.invalidESCfg = true ∧ cr.state.cacheInitialized = true := by
  have h := readiness_flags_monotone.1 bothFlagsFetcher [PageResponse.transportError] []
    { state := bothFlagsFetcher, err := some FetchPageError.transport,
      clearScrollCalls := 1, pagesUsed := 1, logs := [] } rfl
  exact ⟨_, rfl, h.1 rfl, h.2.1 rfl⟩

/-- C8 is false as stated: from the fresh fetcher, a successful empty
refresh (first tick) followed by a 401 page (second tick) leaves the
fetcher with `cacheInitialized = true` AND `invalidESCfg = true`: the
flag combination IS reachable by a sequence of refresh cycles. -/
theorem both_flags_reachable_counterexample :
    Run NewElasticsearchFetcher
        [RunEvent.tick [sampleEmptyPage] [], RunEvent.tick [sampleAuthPage] []] =
      some ({ cache := [], invalidESCfg := true, cacheInitialized := true }, none) := by
  rfl

/-- C8 (amended): the combination `initialized = true, invalid = true` is
reachable once a successful refresh precedes the 401/403 failure; what
holds is that a single refresh cycle starting with both flags down never
ends with both flags up — the combination needs a successful cycle
strictly before the permanently-failing one. -/
theorem both_flags_need_prior_success (f : ElasticsearchFetcher)
    (pages : List PageResponse) (cs : List ClearScrollResponse) (cr : CycleResult)
    (hinit : f.cacheInitialized = false) (hinv : f.invalidESCfg = false)
    (h : refreshCache f pages cs = some cr) :
    ¬ (cr.state.cacheInitialized = true ∧ cr.state.invalidESCfg = true) := by
  rintro ⟨hci, hcv⟩
  rcases refreshCache_init_source f pages cs cr h hci with hx | hok
  · rw [hinit] at hx
    exact absurd hx (by simp)
  · rcases refreshCache_inversion f pages cs cr h with ⟨o, hl, hcase⟩
    rcases hcase with ⟨e, hout, hcr⟩ | ⟨buffer, hout, hcr⟩
    · rw [hcr] at hok
      simp at hok
    · have hoinv : o.invalidESCfg = f.invalidESCfg :=
        refreshLoop_ok_invalid pages f.invalidESCfg [] "" cs o buffer hl hout
      have hcv2 : o.invalidESCfg = true := by
        rw [hcr] at hcv
        exact hcv
      rw [hoinv, hinv] at hcv2
      exact absurd hcv2 (by simp)

/-- Witness for the amended C8: the 401-only cycle from the fresh fetcher
does not produce both flags. -/
theorem both_flags_need_prior_success_witness :
    ∃ cr, refreshCache NewElasticsearchFetcher [sampleAuthPage] [] = some cr ∧
      ¬ (cr.state.cacheInitialized = true ∧ cr.state.invalidESCfg = true) := by
  refine ⟨{ state := { cache := [], invalidESCfg := true, cacheInitialized := false },
            err := some (FetchPageError.status 401), clearScrollCalls := 1,
            pagesUsed := 1, logs := [] }, rfl, ?_⟩
  exact both_flags_need_prior_success NewElasticsearchFetcher [sampleAuthPage] []
    { state := { cache := [], invalidESCfg := true, cacheInitialized := false },
      err := some (FetchPageError.status 401), clearScrollCalls := 1,
      pagesUsed := 1, logs := [] } rfl rfl rfl

/-- C9: pagination stops at the first zero-record page: whatever pages lie
beyond it are never requested (the outcome is one and the same for every
continuation), exactly `pre.length + 1` page requests are issued, the
cycle succeeds, and the buffer accumulated so far becomes the published
candidate snapshot. -/
theorem pagination_stops_at_first_empty (f : ElasticsearchFetcher)
    (pre : List PageResponse) (p : PageResponse) (cs : List ClearScrollResponse)
    (hpre : ∀ q ∈ pre, isNonemptyOkPage q = true) (hp : isEmptyOkPage p = true) :
    ∃ cr : CycleResult,
      (∀ post : List PageResponse, refreshCache f (pre ++ p :: post) cs = some cr) ∧
      cr.pagesUsed = pre.length + 1 ∧ cr.err = none ∧
      cr.state.cache = pre.flatMap pageRecords := by
  rcases refreshLoop_stop pre f.invalidESCfg [] "" cs p hpre hp with
    ⟨o, hpost, hout, hpages, hoinv, hocs⟩
  refine ⟨{ state := { cache := pre.flatMap pageRecords,
                       invalidESCfg := o.invalidESCfg, cacheInitialized := true },
            err := none, clearScrollCalls := o.clearScrollCalls + 1,
            pagesUsed := o.pagesUsed,
            logs := o.logs ++ (clearScroll (cs.headD ClearScrollResponse.ok)).toList },
    ?_, hpages, rfl, rfl⟩
  intro post
  simp only [refreshCache, hpost post, hout, List.nil_append]

/-- Witness for C9: one full page then the empty page gives a cycle with
two page requests publishing the one record, for the empty continuation. -/
theorem pagination_stops_at_first_empty_witness :
    ∃ cr : CycleResult,
      (∀ post, refreshCache NewElasticsearchFetcher
        ([samplePage] ++ sampleEmptyPage :: post) [] = some cr) ∧
      cr.pagesUsed = 2 ∧ cr.err = none ∧
      cr.state.cache = [hitToAgentConfig sampleHit] := by
  rcases pagination_stops_at_first_empty NewElasticsearchFetcher [samplePage]
      sampleEmptyPage []
      (by
        intro q hq
        simp only [List.mem_singleton] at hq
        subst hq
        decide)
      (by decide) with ⟨cr, h1, h2, h3, h4⟩
  refine ⟨cr, h1, h2, h3, ?_⟩
  rw [h4]
  rfl

/-- C10: when the very first page of a cycle is a successfully decoded
zero-record page, the cycle counts as a successful refresh: an empty
snapshot is published, the initialized flag is set, and Fetch thereafter
delegates the query with the empty record list to the Matcher instead of
failing with NotReady. -/
theorem empty_first_page_marks_ready {Query Result : Type}
    (matchAgentConfig : Query → List AgentConfig → Result)
    (f : ElasticsearchFetcher) (p : PageResponse) (rest : List PageResponse)
    (cs : List ClearScrollResponse) (query : Query)
    (hp : isEmptyOkPage p = true) :
    ∃ cr : CycleResult, refreshCache f (p :: rest) cs = some cr ∧
      cr.err = none ∧ cr.state.cache = [] ∧ cr.state.cacheInitialized = true ∧
      Fetch matchAgentConfig cr.state query = Except.ok (matchAgentConfig query []) := by
  rcases refreshLoop_stop [] f.invalidESCfg [] "" cs p
      (fun q hq => absurd hq (List.not_mem_nil q)) hp with
    ⟨o, hpost, hout, hpages, hoinv, hocs⟩
  have hl : refreshLoop f.invalidESCfg [] "" cs (p :: rest) = some o := by
    have hx := hpost rest
    simpa using hx
  have hout2 : o.outcome = Except.ok [] := by
    simpa using hout
  refine ⟨{ state := { cache := [], invalidESCfg := o.invalidESCfg,
                       cacheInitialized := true },
            err := none, clearScrollCalls := o.clearScrollCalls + 1,
            pagesUsed := o.pagesUsed,
            logs := o.logs ++ (clearScroll (cs.headD ClearScrollResponse.ok)).toList },
    ?_, rfl, rfl, rfl, ?_⟩
  · simp only [refreshCache, hl, hout2]
  · simp [Fetch]

/-- Witness for C10: the empty page alone primes the fetcher and Fetch
serves the empty snapshot. -/
theorem empty_first_page_marks_ready_witness :
    ∃ cr : CycleResult,
      refreshCache NewElasticsearchFetcher [sampleEmptyPage] [] = some cr ∧
      cr.err = none ∧ cr.state.cache = [] ∧ cr.state.cacheInitialized = true ∧
      Fetch (fun (_ : Nat) cache => cache) cr.state 0 = Except.ok [] :=
  empty_first_page_marks_ready (fun (_ : Nat) cache => cache)
    NewElasticsearchFetcher sampleEmptyPage [] [] 0 (by decide)

end Agentcfg
